import Mathlib

/-!
Shallow embedding of the ELHOSENY Laundry POS application (Flask + SQLAlchemy).

Monetary values and tax rates are modelled as rationals (the Python code mixes
Decimal column values and floats; ℚ captures the exact arithmetic performed).
Calendar days are modelled as integers (days since the Unix epoch); timestamps
with sub-day resolution are rationals measured in days.  The database is a
record of lists; a successful `db.session.commit` appends all rows added in the
session atomically, and every failure path returns the unchanged state
(rollback / teardown without commit).
-/

namespace LaundryPos

/-- app/models.py, class Product (fields relevant to order creation). -/
structure Product where
  id : Nat
  price : ℚ
  is_active : Bool := true
deriving Repr, DecidableEq, Inhabited

/-- app/models.py, class Settings (singleton; field relevant to order creation).
The column default for tax_rate is 14.0. -/
structure Settings where
  tax_rate : ℚ := 14
deriving Repr, DecidableEq, Inhabited

/-- app/models.py, class Order.  `created_day` models the calendar day of
`created_at` (used by `generate_order_number` and the reports). -/
structure Order where
  id : Nat
  order_number : String
  user_id : Nat
  customer_id : Option Nat := none
  total_amount : ℚ
  tax_amount : ℚ := 0
  discount_amount : ℚ := 0
  payment_method : String
  status : String := "pending"
  created_day : Int
  completed_at : Option Int := none
deriving Repr, DecidableEq, Inhabited

/-- app/models.py, class OrderItem. -/
structure OrderItem where
  order_id : Nat
  product_id : Nat
  quantity : Nat
  unit_price : ℚ
  total_price : ℚ
deriving Repr, DecidableEq, Inhabited

/-- app/models.py, class Transaction (ledger entry). -/
structure Transaction where
  type : String
  category : String
  amount : ℚ
  reference_type : String
  reference_id : Option Nat := none
  payment_method : String
  created_by : Nat
deriving Repr, DecidableEq, Inhabited

/-- app/models.py, class BackupLog.  `created_at` is in days. -/
structure BackupLog where
  filename : String
  status : String
  created_at : Int
deriving Repr, DecidableEq, Inhabited

/-- app/models.py, class User (fields relevant to auth and permissions). -/
structure User where
  id : Nat
  username : String
  role : String := "cashier"
  is_active : Bool := true
deriving Repr, DecidableEq, Inhabited

/-- The relational store seen by the order-creation routes.  `next_order_id`
models the autoincrement primary key of the orders table. -/
structure DBState where
  products : List Product := []
  orders : List Order := []
  order_items : List OrderItem := []
  transactions : List Transaction := []
  settings : Option Settings := none
  next_order_id : Nat := 1
deriving Repr, DecidableEq, Inhabited

/-- Zero padding used by the f-string `{today_count:04d}`. -/
def pad4 (n : Nat) : String :=
  let s := toString n
  String.join (List.replicate (4 - s.length) "0") ++ s

/-- app/utils.py, generate_order_number (lines 17-27): counts the orders
created on the current calendar day and appends the count + 1, zero padded to
4 digits.  `toString today` stands in for `strftime('%Y%m%d')`; both are
injective renderings of the calendar day. -/
def generate_order_number (st : DBState) (today : Int) : String :=
  let today_count := (st.orders.filter (fun o => o.created_day == today)).length + 1
  "ORD-" ++ toString today ++ "-" ++ pad4 today_count

/-- `settings.tax_rate if settings else 0` (pos_routes.py line 535). -/
def settings_tax_rate (st : DBState) : ℚ :=
  match st.settings with
  | some s => s.tax_rate
  | none => 0

/-- The storage-layer unique index on orders.order_number (models.py line 121,
`unique=True`): an insert of a duplicate order number makes the commit raise. -/
def insert_order_ok (st : DBState) (order_number : String) : Bool :=
  st.orders.all (fun o => o.order_number != order_number)

/-- Outcome of one order-creation request.  `validationError` is the 400 path
(API) or the flash-and-redirect path (POS); `serverError` is the
exception/rollback path (500 "Failed to create order" in the API, flash
"Error creating order." in the POS). -/
inductive CreateResult where
  | validationError (msg : String)
  | serverError
  | created (order : Order) (items : List OrderItem) (txn : Transaction)
deriving Repr, DecidableEq, Inhabited

def createdOrder : CreateResult → Option Order
  | .created o _ _ => some o
  | _ => none

def createdItems : CreateResult → Option (List OrderItem)
  | .created _ its _ => some its
  | _ => none

def createdTxn : CreateResult → Option Transaction
  | .created _ _ t => some t
  | _ => none

def isCreated (r : CreateResult) : Bool := (createdOrder r).isSome

/-- One element of the `items` array of the API order payload
(api_routes.py, OrderItemSchema): product_id, quantity, optional unit_price
override (`item_data.get('unit_price', product.price)`). -/
structure ItemData where
  product_id : Nat
  quantity : Nat
  unit_price : Option ℚ := none
deriving Repr, DecidableEq, Inhabited

/-- The API order payload (api_routes.py create_order, data read via
order_schema). -/
structure OrderRequest where
  customer_id : Option Nat := none
  payment_method : String := "cash"
  discount_amount : ℚ := 0
  items : List ItemData := []
deriving Repr, DecidableEq, Inhabited

/-- The item loop of api_routes.create_order (lines 334-351): look each
product up, default the unit price to the catalog price, compute the line
total and accumulate the running total.  A missing product aborts the loop
with the 400 error of line 337. -/
def build_items (st : DBState) (oid : Nat) : List ItemData → Except String (List OrderItem × ℚ)
  | [] => .ok ([], 0)
  | it :: rest =>
    match st.products.find? (fun p => p.id == it.product_id) with
    | none => .error ("Product " ++ toString it.product_id ++ " not found")
    | some product =>
      let unit_price := it.unit_price.getD product.price
      let total_price := unit_price * (it.quantity : ℚ)
      match build_items st oid rest with
      | .error e => .error e
      | .ok (ois, sum) =>
        .ok ({ order_id := oid, product_id := product.id, quantity := it.quantity,
               unit_price := unit_price, total_price := total_price } :: ois,
             total_price + sum)

/-- api_routes.py, create_order (lines 303-384).  `today` is the current
calendar day, `user_id` is request.current_user.id, `commitOk` models whether
`db.session.commit()` succeeds for reasons external to the unique index (the
unique index itself is checked by `insert_order_ok`).  Every failure path
leaves the store unchanged: the 400 paths never commit, and the except branch
of line 382 rolls the session back.  Tax is hard-coded to 0 with the comment
"TODO: Get tax rate from settings" (lines 356-358). -/
def api_create_order (st : DBState) (today : Int) (user_id : Nat)
    (req : OrderRequest) (commitOk : Bool) : DBState × CreateResult :=
  if req.items.isEmpty then
    (st, .validationError "Order must contain at least one item")
  else
    let order_number := generate_order_number st today
    let oid := st.next_order_id
    match build_items st oid req.items with
    | .error e => (st, .validationError e)
    | .ok (ois, subtotal) =>
      let total_amount := subtotal - req.discount_amount
      let tax_amount : ℚ := 0
      let order : Order :=
        { id := oid, order_number := order_number, user_id := user_id,
          customer_id := req.customer_id,
          total_amount := total_amount + tax_amount, tax_amount := tax_amount,
          discount_amount := req.discount_amount,
          payment_method := req.payment_method, status := "pending",
          created_day := today, completed_at := none }
      let txn : Transaction :=
        { type := "income", category := "sales", amount := order.total_amount,
          reference_type := "order", reference_id := some oid,
          payment_method := req.payment_method, created_by := user_id }
      if commitOk && insert_order_ok st order_number then
        ({ st with orders := st.orders ++ [order],
                   order_items := st.order_items ++ ois,
                   transactions := st.transactions ++ [txn],
                   next_order_id := oid + 1 },
         .created order ois txn)
      else
        (st, .serverError)

/-- One cart line of the POS order form (product_id[] / quantity[]). -/
structure PosItem where
  product_id : Nat
  quantity : Nat
deriving Repr, DecidableEq, Inhabited

/-- The POS order form data (pos_routes.py new_order, lines 494-502). -/
structure PosOrderRequest where
  customer_id : Option Nat := none
  payment_method : String := "cash"
  discount_amount : ℚ := 0
  items : List PosItem := []
deriving Repr, DecidableEq, Inhabited

/-- The cart loop of pos_routes.new_order (lines 512-528): the unit price is
always the catalog price.  A missing product raises (AttributeError on
`product.price`), which the route's except branch turns into rollback. -/
def pos_build_items (st : DBState) (oid : Nat) : List PosItem → Except Unit (List OrderItem × ℚ)
  | [] => .ok ([], 0)
  | it :: rest =>
    match st.products.find? (fun p => p.id == it.product_id) with
    | none => .error ()
    | some product =>
      let unit_price := product.price
      let total_price := unit_price * (it.quantity : ℚ)
      match pos_build_items st oid rest with
      | .error e => .error e
      | .ok (ois, sum) =>
        .ok ({ order_id := oid, product_id := product.id, quantity := it.quantity,
               unit_price := unit_price, total_price := total_price } :: ois,
             total_price + sum)

/-- pos_routes.py, new_order POST branch (lines 488-586).  Tax is computed
from the Settings singleton: `tax_rate = settings.tax_rate if settings else 0;
tax_amount = (total_amount * tax_rate) / 100` where total_amount is the
discounted subtotal (lines 530-536).  Any exception (missing product, unique
index violation, commit failure) rolls the whole session back. -/
def pos_new_order (st : DBState) (today : Int) (user_id : Nat)
    (req : PosOrderRequest) (commitOk : Bool) : DBState × CreateResult :=
  if req.items.isEmpty then
    (st, .validationError "Please add items to the order.")
  else
    match pos_build_items st st.next_order_id req.items with
    | .error _ => (st, .serverError)
    | .ok (ois, subtotal) =>
      let total_amount := subtotal - req.discount_amount
      let tax_rate := settings_tax_rate st
      let tax_amount := (total_amount * tax_rate) / 100
      let order_number := generate_order_number st today
      let oid := st.next_order_id
      let order : Order :=
        { id := oid, order_number := order_number, user_id := user_id,
          customer_id := req.customer_id,
          total_amount := total_amount + tax_amount, tax_amount := tax_amount,
          discount_amount := req.discount_amount,
          payment_method := req.payment_method, status := "pending",
          created_day := today, completed_at := none }
      let txn : Transaction :=
        { type := "income", category := "sales", amount := order.total_amount,
          reference_type := "order", reference_id := some oid,
          payment_method := req.payment_method, created_by := user_id }
      if commitOk && insert_order_ok st order_number then
        ({ st with orders := st.orders ++ [order],
                   order_items := st.order_items ++ ois,
                   transactions := st.transactions ++ [txn],
                   next_order_id := oid + 1 },
         .created order ois txn)
      else
        (st, .serverError)

/-- The five statuses accepted by both status-update routes
(api_routes.py line 406, pos_routes.py line 609). -/
def valid_statuses : List String :=
  ["pending", "in_progress", "ready", "completed", "cancelled"]

/-- api_routes.py update_order_status (lines 394-417) and pos_routes.py
update_order_status (lines 599-625): any status from the fixed list is
accepted and assigned, regardless of the order's current status;
completed_at is stamped when the new status is completed.  `none` is the
rejection of a status outside the list (400 / flash "Invalid status."). -/
def update_order_status (o : Order) (new_status : String) (now : Int) : Option Order :=
  if valid_statuses.contains new_status then
    some { o with
           status := new_status,
           completed_at := (if new_status == "completed" then some now else o.completed_at) }
  else
    none

/-- The sum of the line totals of a list of order items. -/
def items_total (its : List OrderItem) : ℚ :=
  (its.map (fun i => i.total_price)).sum

/-- Catalog price of a product id, as the routes look it up
(`Product.query.get`). -/
def catalog_price (st : DBState) (pid : Nat) : Option ℚ :=
  (st.products.find? (fun p => p.id == pid)).map (fun p => p.price)

/-- Satisfaction of a property by the created row set of an order-creation
result (vacuous on the failure outcomes). -/
def createdSat (r : DBState × CreateResult)
    (P : DBState → Order → List OrderItem → Transaction → Prop) : Prop :=
  match r.2 with
  | .created o its txn => P r.1 o its txn
  | _ => True

/-- The item relation realised by api_routes.create_order: quantities carry
over, each line total is unit price times quantity, and the unit price is the
request override when present, else the catalog price. -/
def apiItemRel (st : DBState) (d : ItemData) (oi : OrderItem) : Bool :=
  oi.product_id == d.product_id && oi.quantity == d.quantity &&
  oi.total_price == oi.unit_price * (d.quantity : ℚ) &&
  (match d.unit_price with
   | some up => oi.unit_price == up
   | none => catalog_price st d.product_id == some oi.unit_price)

/-- The item relation realised by pos_routes.new_order: the unit price is
always the catalog price. -/
def posItemRel (st : DBState) (d : PosItem) (oi : OrderItem) : Bool :=
  oi.product_id == d.product_id && oi.quantity == d.quantity &&
  oi.total_price == oi.unit_price * (d.quantity : ℚ) &&
  catalog_price st d.product_id == some oi.unit_price

/-! ### Backup retention (app/utils.py, cleanup_old_backups) -/

/-- The backups directory plus the backup_logs table. -/
structure BackupState where
  files : List String := []
  logs : List BackupLog := []
deriving Repr, DecidableEq, Inhabited

/-- app/utils.py, cleanup_old_backups (lines 257-277): every BackupLog row
with created_at older than `now - retention_days` has its file removed (when
present) and its row deleted; nothing else is touched.  Times are in days. -/
def cleanup_old_backups (retention_days : Int) (now : Int) (st : BackupState) : BackupState :=
  let cutoff := now - retention_days
  { files := st.files.filter
      (fun f => ! st.logs.any (fun b => decide (b.created_at < cutoff) && b.filename == f)),
    logs := st.logs.filter (fun b => ! decide (b.created_at < cutoff)) }

/-- Modelled from the spec: the most recent successful backup ("the single
most recent successful backup"), used to state the retention claim.  Returns
the success-status log with the largest created_at. -/
def most_recent_successful (logs : List BackupLog) : Option BackupLog :=
  (logs.filter (fun b => b.status == "success")).foldl
    (fun acc b =>
      match acc with
      | none => some b
      | some m => if m.created_at < b.created_at then some b else some m)
    none

/-! ### JWT auth (app/auth.py, app/config.py) -/

/-- config.py line 15: JWT_ACCESS_TOKEN_EXPIRES = timedelta(hours=24),
in seconds. -/
def JWT_ACCESS_TOKEN_EXPIRES : Int := 24 * 60 * 60

/-- The claims of a token of this application (auth.py lines 11-18): both
token generators always embed exp, iat and a type tag. -/
structure JwtPayload where
  user_id : Nat
  exp : Int
  iat : Int
  type : String
deriving Repr, DecidableEq, Inhabited

/-- A presented token.  `sig_key` models the HS256 signature: verification
against secret `s` succeeds exactly when the token was signed with `s`. -/
structure JwtToken where
  payload : JwtPayload
  sig_key : String
deriving Repr, DecidableEq, Inhabited

/-- auth.py, generate_jwt_token (lines 9-26): access token signed with the
configured secret, expiring JWT_ACCESS_TOKEN_EXPIRES after issuance. -/
def generate_jwt_token (secret : String) (user : User) (now : Int) : JwtToken :=
  { payload := { user_id := user.id, exp := now + JWT_ACCESS_TOKEN_EXPIRES,
                 iat := now, type := "access" },
    sig_key := secret }

inductive JwtError where
  | expiredSignature
  | invalidToken
deriving Repr, DecidableEq, Inhabited

/-- `jwt.decode(token, secret, algorithms=['HS256'])`: a bad signature raises
InvalidTokenError; PyJWT raises ExpiredSignatureError when exp ≤ now. -/
def jwt_decode (secret : String) (now : Int) (t : JwtToken) : Except JwtError JwtPayload :=
  if t.sig_key != secret then .error .invalidToken
  else if t.payload.exp ≤ now then .error .expiredSignature
  else .ok t.payload

/-- auth.py, verify_jwt_token (lines 45-66): decode (signature + expiry),
require type 'access', then require that the embedded user id resolves to an
active user; every failure returns None. -/
def verify_jwt_token (secret : String) (now : Int) (users : List User)
    (t : JwtToken) : Option User :=
  match jwt_decode secret now t with
  | .error _ => none
  | .ok payload =>
    if payload.type != "access" then none
    else
      match users.find? (fun u => u.id == payload.user_id) with
      | some user => if user.is_active then some user else none
      | none => none

/-! ### Permission check (app/models.py User.has_permission, app/auth.py
has_permission decorator) -/

/-- models.py lines 23-28: `if self.role == 'admin': return True` followed by
an unconditional `return True` (the per-role logic is a placeholder). -/
def User.has_permission (u : User) (permission : String) : Bool :=
  if u.role == "admin" then true else true

/-- Outcome of the auth.has_permission decorator before the wrapped handler
runs: 401, 403, or fall-through to the handler. -/
inductive AuthCheck where
  | unauthorized
  | forbidden
  | allowed
deriving Repr, DecidableEq, Inhabited

/-- auth.py, has_permission decorator (lines 101-115): 401 when no
authenticated user, 403 when the user lacks the permission, otherwise the
handler runs.  `current_user = none` models an unauthenticated request. -/
def has_permission_decorator (permission : String) (current_user : Option User) : AuthCheck :=
  match current_user with
  | none => .unauthorized
  | some u =>
    if ! u.has_permission permission then .forbidden else .allowed

/-! ### Reporting windows (api_routes.weekly_report, utils.export_to_excel) -/

/-- Python date.weekday (Monday = 0).  Day 0 (1970-01-01) was a Thursday,
whose weekday index is 3. -/
def weekday (d : Int) : Int := (d + 3) % 7

/-- api_routes.py line 483: `start_of_week = today - timedelta(days=today.weekday())`. -/
def week_start (today : Int) : Int := today - weekday today

/-- api_routes.py weekly_report (lines 479-509): a row is in the weekly
window when its calendar date lies between start_of_week and
start_of_week + 6 inclusive. -/
def weekly_report_includes (today : Int) (created_day : Int) : Bool :=
  decide (week_start today ≤ created_day) && decide (created_day ≤ week_start today + 6)

/-- utils.py export_to_excel lines 36-45: the start of the export window.
`now` and the result are timestamps in days (fractions are the time of day);
daily truncates to midnight, weekly is now − 7 days, monthly now − 30 days,
anything else now − 1 day. -/
def export_start_date (period : String) (now : ℚ) : ℚ :=
  if period == "daily" then ((Int.floor now : Int) : ℚ)
  else if period == "weekly" then now - 7
  else if period == "monthly" then now - 30
  else now - 1

/-- utils.py export_to_excel lines 48-54: rows with
`created_at >= start_date` are exported (no upper bound). -/
def export_includes (period : String) (now created_at : ℚ) : Bool :=
  decide (export_start_date period now ≤ created_at)

/-! ### Spec-side definitions (for refinement comparison only) -/

/-- Follows the spec's words: round to 2 decimal places.  (Python's round is
round-half-to-even; this is round-half-up, but the two agree away from ties
and every use below is tie-free.) -/
def spec_round2 (x : ℚ) : ℚ := ((round (x * 100) : ℤ) : ℚ) / 100

/-- Follows the spec's words: `tax_amount = round((Σ line total_price −
discount_amount) × tax_rate / 100, 2)`. -/
def spec_tax_amount (tax_rate subtotal discount : ℚ) : ℚ :=
  spec_round2 ((subtotal - discount) * tax_rate / 100)

/-- Modelled from the spec: the position of a status in the forward pipeline
pending → in_progress → ready → completed, used to state the monotonicity
claim. -/
def status_rank (s : String) : Nat :=
  if s == "pending" then 0
  else if s == "in_progress" then 1
  else if s == "ready" then 2
  else if s == "completed" then 3
  else 4

/-- Modelled from the spec: a transition is legal when it moves forward in
the pipeline or goes to the explicit cancelled state. -/
def status_forward_or_cancel (old_status new_status : String) : Bool :=
  decide (status_rank old_status ≤ status_rank new_status) || new_status == "cancelled"

/-! ### Concrete sample data (the scenario of spec section 8: product priced
15.00, quantity 2, discount 0, tax rate 14) -/

def sample_st : DBState :=
  { products := [{ id := 1, price := 15 }],
    settings := some { tax_rate := 14 } }

def sample_req : OrderRequest :=
  { payment_method := "cash", discount_amount := 0,
    items := [{ product_id := 1, quantity := 2 }] }

def sample_pos_req : PosOrderRequest :=
  { payment_method := "cash", discount_amount := 0,
    items := [{ product_id := 1, quantity := 2 }] }

def sample_api_res : DBState × CreateResult := api_create_order sample_st 0 7 sample_req true

def sample_api_o : Order := (createdOrder sample_api_res.2).getD default

def sample_api_its : List OrderItem := (createdItems sample_api_res.2).getD []

def sample_api_txn : Transaction := (createdTxn sample_api_res.2).getD default

def sample_pos_res : DBState × CreateResult := pos_new_order sample_st 0 7 sample_pos_req true

def sample_pos_o : Order := (createdOrder sample_pos_res.2).getD default

/-- A request referencing a product id that is not in the catalog. -/
def missing_req : OrderRequest :=
  { payment_method := "cash", items := [{ product_id := 99, quantity := 1 }] }

/-- A POS cart referencing a product id that is not in the catalog. -/
def missing_pos_req : PosOrderRequest :=
  { payment_method := "cash", items := [{ product_id := 99, quantity := 1 }] }

/-- A store that already holds the order number that
`generate_order_number` will produce next for day 0 (the count-based
sequence regenerates the same value). -/
def dup_st : DBState :=
  { products := [{ id := 1, price := 15 }],
    orders := [{ id := 1, order_number := "ORD-0-0002", user_id := 7, total_amount := 30,
                 payment_method := "cash", status := "pending", created_day := 0 }],
    settings := some { tax_rate := 14 },
    next_order_id := 2 }

/-- An order that has already reached the completed status. -/
def completed_order : Order :=
  { id := 5, order_number := "ORD-0-0007", user_id := 7, total_amount := 30,
    payment_method := "cash", status := "completed", created_day := 0,
    completed_at := some 10 }

def c6_o2 : Order := (update_order_status completed_order "pending" 11).getD default

/-- A successful backup from day 0 (the only, hence most recent, one). -/
def c5_log : BackupLog :=
  { filename := "laundry_pos_backup_1.db", status := "success", created_at := 0 }

def c5_bst : BackupState := { files := ["laundry_pos_backup_1.db"], logs := [c5_log] }

/-! ### Helper lemmas -/

lemma build_items_spec (st : DBState) (oid : Nat) :
    ∀ (items : List ItemData) (ois : List OrderItem) (sum : ℚ),
      build_items st oid items = .ok (ois, sum) →
      sum = items_total ois ∧ ois.length = items.length ∧
      (∀ p ∈ items.zip ois, apiItemRel st p.1 p.2 = true) ∧
      (∀ oi ∈ ois, oi.order_id = oid ∧ oi.total_price = oi.unit_price * (oi.quantity : ℚ)) := by
  intro items
  induction items with
  | nil =>
    intro ois sum h
    simp only [build_items, Except.ok.injEq, Prod.mk.injEq] at h
    obtain ⟨h1, h2⟩ := h
    subst h1
    subst h2
    simp [items_total]
  | cons d rest ih =>
    intro ois sum h
    simp only [build_items] at h
    cases hf : st.products.find? (fun p => p.id == d.product_id) with
    | none => rw [hf] at h; simp at h
    | some product =>
      rw [hf] at h
      cases hr : build_items st oid rest with
      | error e => rw [hr] at h; simp at h
      | ok pr =>
        obtain ⟨ois0, sum0⟩ := pr
        rw [hr] at h
        simp only [Except.ok.injEq, Prod.mk.injEq] at h
        obtain ⟨hois, hsum⟩ := h
        subst hois
        subst hsum
        obtain ⟨ihsum, ihlen, ihrel, ihoid⟩ := ih ois0 sum0 hr
        have hpid : product.id = d.product_id := by
          have := List.find?_some hf
          simpa using this
        refine ⟨?_, by simp [ihlen], ?_, ?_⟩
        · simp [items_total, ihsum]
        · intro p hp
          simp only [List.zip_cons_cons, List.mem_cons] at hp
          rcases hp with hp | hp
          · subst hp
            simp only [apiItemRel, hpid, catalog_price, hf]
            cases d.unit_price <;> simp
          · exact ihrel p hp
        · intro oi hoi
          rcases List.mem_cons.mp hoi with hoi | hoi
          · subst hoi; simp
          · exact ihoid oi hoi

lemma pos_build_items_spec (st : DBState) (oid : Nat) :
    ∀ (items : List PosItem) (ois : List OrderItem) (sum : ℚ),
      pos_build_items st oid items = .ok (ois, sum) →
      sum = items_total ois ∧ ois.length = items.length ∧
      (∀ p ∈ items.zip ois, posItemRel st p.1 p.2 = true) ∧
      (∀ oi ∈ ois, oi.order_id = oid ∧ oi.total_price = oi.unit_price * (oi.quantity : ℚ)) := by
  intro items
  induction items with
  | nil =>
    intro ois sum h
    simp only [pos_build_items, Except.ok.injEq, Prod.mk.injEq] at h
    obtain ⟨h1, h2⟩ := h
    subst h1
    subst h2
    simp [items_total]
  | cons d rest ih =>
    intro ois sum h
    simp only [pos_build_items] at h
    cases hf : st.products.find? (fun p => p.id == d.product_id) with
    | none => rw [hf] at h; simp at h
    | some product =>
      rw [hf] at h
      cases hr : pos_build_items st oid rest with
      | error e => rw [hr] at h; simp at h
      | ok pr =>
        obtain ⟨ois0, sum0⟩ := pr
        rw [hr] at h
        simp only [Except.ok.injEq, Prod.mk.injEq] at h
        obtain ⟨hois, hsum⟩ := h
        subst hois
        subst hsum
        obtain ⟨ihsum, ihlen, ihrel, ihoid⟩ := ih ois0 sum0 hr
        have hpid : product.id = d.product_id := by
          have := List.find?_some hf
          simpa using this
        refine ⟨?_, by simp [ihlen], ?_, ?_⟩
        · simp [items_total, ihsum]
        · intro p hp
          simp only [List.zip_cons_cons, List.mem_cons] at hp
          rcases hp with hp | hp
          · subst hp
            simp [posItemRel, hpid, catalog_price, hf]
          · exact ihrel p hp
        · intro oi hoi
          rcases List.mem_cons.mp hoi with hoi | hoi
          · subst hoi; simp
          · exact ihoid oi hoi

lemma api_create_order_created_inv (st : DBState) (today : Int) (uid : Nat)
    (req : OrderRequest) (ok : Bool) (st2 : DBState) (o : Order)
    (its : List OrderItem) (txn : Transaction)
    (h : api_create_order st today uid req ok = (st2, .created o its txn)) :
    ∃ subtotal : ℚ,
      build_items st st.next_order_id req.items = .ok (its, subtotal) ∧
      o = { id := st.next_order_id, order_number := generate_order_number st today,
            user_id := uid, customer_id := req.customer_id,
            total_amount := (subtotal - req.discount_amount) + 0, tax_amount := 0,
            discount_amount := req.discount_amount, payment_method := req.payment_method,
            status := "pending", created_day := today, completed_at := none } ∧
      txn = { type := "income", category := "sales", amount := o.total_amount,
              reference_type := "order", reference_id := some st.next_order_id,
              payment_method := req.payment_method, created_by := uid } ∧
      st2 = { st with
              orders := st.orders ++ [o],
              order_items := st.order_items ++ its,
              transactions := st.transactions ++ [txn],
              next_order_id := st.next_order_id + 1 } ∧
      (ok && insert_order_ok st (generate_order_number st today)) = true ∧
      req.items.isEmpty = false := by
  unfold api_create_order at h
  split at h
  case isTrue => simp at h
  case isFalse hne =>
    simp only [] at h
    split at h
    case h_1 e heq => simp at h
    case h_2 ois subtotal heq =>
      split at h
      case isTrue hcommit =>
        simp only [Prod.mk.injEq, CreateResult.created.injEq] at h
        obtain ⟨hst2, ho, hits, htxn⟩ := h
        subst ho hits htxn hst2
        refine ⟨subtotal, heq, rfl, rfl, rfl, hcommit, by simpa using hne⟩
      case isFalse => simp at h

lemma pos_new_order_created_inv (st : DBState) (today : Int) (uid : Nat)
    (req : PosOrderRequest) (ok : Bool) (st2 : DBState) (o : Order)
    (its : List OrderItem) (txn : Transaction)
    (h : pos_new_order st today uid req ok = (st2, .created o its txn)) :
    ∃ subtotal : ℚ,
      pos_build_items st st.next_order_id req.items = .ok (its, subtotal) ∧
      o = { id := st.next_order_id, order_number := generate_order_number st today,
            user_id := uid, customer_id := req.customer_id,
            total_amount := (subtotal - req.discount_amount) +
              (subtotal - req.discount_amount) * settings_tax_rate st / 100,
            tax_amount := (subtotal - req.discount_amount) * settings_tax_rate st / 100,
            discount_amount := req.discount_amount, payment_method := req.payment_method,
            status := "pending", created_day := today, completed_at := none } ∧
      txn = { type := "income", category := "sales", amount := o.total_amount,
              reference_type := "order", reference_id := some st.next_order_id,
              payment_method := req.payment_method, created_by := uid } ∧
      st2 = { st with
              orders := st.orders ++ [o],
              order_items := st.order_items ++ its,
              transactions := st.transactions ++ [txn],
              next_order_id := st.next_order_id + 1 } ∧
      (ok && insert_order_ok st (generate_order_number st today)) = true ∧
      req.items.isEmpty = false := by
  unfold pos_new_order at h
  split at h
  case isTrue => simp at h
  case isFalse hne =>
    split at h
    case h_1 e heq => simp at h
    case h_2 ois subtotal heq =>
      simp only [] at h
      split at h
      case isTrue hcommit =>
        simp only [Prod.mk.injEq, CreateResult.created.injEq] at h
        obtain ⟨hst2, ho, hits, htxn⟩ := h
        subst ho hits htxn hst2
        exact ⟨subtotal, heq, rfl, rfl, rfl, hcommit, by simpa using hne⟩
      case isFalse => simp at h

lemma api_create_order_fail_state (st : DBState) (today : Int) (uid : Nat)
    (req : OrderRequest) (ok : Bool) (st2 : DBState) (r : CreateResult)
    (h : api_create_order st today uid req ok = (st2, r))
    (hr : isCreated r = false) : st2 = st := by
  unfold api_create_order at h
  split at h
  case isTrue =>
    simp only [Prod.mk.injEq] at h
    exact h.1.symm
  case isFalse =>
    simp only [] at h
    split at h
    case h_1 e heq =>
      simp only [Prod.mk.injEq] at h
      exact h.1.symm
    case h_2 ois subtotal heq =>
      split at h
      case isTrue hcommit =>
        simp only [Prod.mk.injEq] at h
        rw [← h.2] at hr
        simp [isCreated, createdOrder] at hr
      case isFalse =>
        simp only [Prod.mk.injEq] at h
        exact h.1.symm

lemma pos_new_order_fail_state (st : DBState) (today : Int) (uid : Nat)
    (req : PosOrderRequest) (ok : Bool) (st2 : DBState) (r : CreateResult)
    (h : pos_new_order st today uid req ok = (st2, r))
    (hr : isCreated r = false) : st2 = st := by
  unfold pos_new_order at h
  split at h
  case isTrue =>
    simp only [Prod.mk.injEq] at h
    exact h.1.symm
  case isFalse =>
    split at h
    case h_1 e heq =>
      simp only [Prod.mk.injEq] at h
      exact h.1.symm
    case h_2 ois subtotal heq =>
      simp only [] at h
      split at h
      case isTrue hcommit =>
        simp only [Prod.mk.injEq] at h
        rw [← h.2] at hr
        simp [isCreated, createdOrder] at hr
      case isFalse =>
        simp only [Prod.mk.injEq] at h
        exact h.1.symm

lemma isCreated_created (r : CreateResult) (h : isCreated r = true) :
    ∃ o its txn, r = .created o its txn := by
  cases r with
  | validationError m => simp [isCreated, createdOrder] at h
  | serverError => simp [isCreated, createdOrder] at h
  | created o its txn => exact ⟨o, its, txn, rfl⟩

/-- C1 counterexample: on the sample store (catalog price 15, quantity 2,
discount 0, Settings tax rate 14) the API route creates the order with
tax_amount = 0 and subtotal 30, while the spec formula
round((30 − 0) × 14 / 100, 2) gives 4.20 ≠ 0. -/
theorem C1_counterexample :
    isCreated (api_create_order sample_st 0 7 sample_req true).2 = true ∧
    (createdOrder (api_create_order sample_st 0 7 sample_req true).2).map
        (fun o => o.tax_amount) = some 0 ∧
    (createdOrder (api_create_order sample_st 0 7 sample_req true).2).map
        (fun o => o.discount_amount) = some 0 ∧
    (createdItems (api_create_order sample_st 0 7 sample_req true).2).map items_total =
        some 30 ∧
    settings_tax_rate sample_st = 14 ∧
    spec_tax_amount 14 30 0 = 21 / 5 ∧
    (0 : ℚ) ≠ 21 / 5 := by
  refine ⟨by decide, by decide, by decide, ?_, by decide, ?_, by norm_num⟩
  · norm_num [api_create_order, sample_st, sample_req, build_items, insert_order_ok,
      createdItems, items_total, List.find?]
  · norm_num [spec_tax_amount, spec_round2]

/-- C1 amended: only the POS route reads the tax rate from the Settings
singleton at creation time, persisting tax_amount = (Σ line total_price −
discount) × tax_rate / 100 exactly (0 when no Settings row, no 2-decimal
rounding in the application); the API route persists tax_amount = 0 for
every order it creates, whatever the Settings say. -/
theorem C1_amended :
    (∀ (st : DBState) (today : Int) (uid : Nat) (req : OrderRequest) (ok : Bool),
      isCreated (api_create_order st today uid req ok).2 = true →
      (createdOrder (api_create_order st today uid req ok).2).map (fun o => o.tax_amount) =
        some 0) ∧
    (∀ (st : DBState) (today : Int) (uid : Nat) (req : PosOrderRequest) (ok : Bool),
      isCreated (pos_new_order st today uid req ok).2 = true →
      (createdOrder (pos_new_order st today uid req ok).2).map (fun o => o.tax_amount) =
        (createdItems (pos_new_order st today uid req ok).2).map
          (fun its => (items_total its - req.discount_amount) * settings_tax_rate st / 100)) := by
  constructor
  · intro st today uid req ok h
    obtain ⟨o, its, txn, hr⟩ := isCreated_created _ h
    have heq : api_create_order st today uid req ok =
        ((api_create_order st today uid req ok).1, CreateResult.created o its txn) := by
      rw [← hr]
    obtain ⟨subtotal, hb, ho, -⟩ :=
      api_create_order_created_inv st today uid req ok _ o its txn heq
    rw [hr]
    simp [createdOrder, ho]
  · intro st today uid req ok h
    obtain ⟨o, its, txn, hr⟩ := isCreated_created _ h
    have heq : pos_new_order st today uid req ok =
        ((pos_new_order st today uid req ok).1, CreateResult.created o its txn) := by
      rw [← hr]
    obtain ⟨subtotal, hb, ho, -⟩ :=
      pos_new_order_created_inv st today uid req ok _ o its txn heq
    obtain ⟨hsum, -⟩ := pos_build_items_spec st st.next_order_id req.items its subtotal hb
    rw [hr]
    simp [createdOrder, createdItems, ho, hsum]

/-- C1 witness: the amended theorem applied to the sample store, through both
routes. -/
theorem C1_witness :
    (isCreated (api_create_order sample_st 0 7 sample_req true).2 = true ∧
     (createdOrder (api_create_order sample_st 0 7 sample_req true).2).map
        (fun o => o.tax_amount) = some 0) ∧
    (isCreated (pos_new_order sample_st 0 7 sample_pos_req true).2 = true ∧
     (createdOrder (pos_new_order sample_st 0 7 sample_pos_req true).2).map
        (fun o => o.tax_amount) =
       (createdItems (pos_new_order sample_st 0 7 sample_pos_req true).2).map
         (fun its => (items_total its - sample_pos_req.discount_amount) *
           settings_tax_rate sample_st / 100)) :=
  ⟨⟨by decide, C1_amended.1 sample_st 0 7 sample_req true (by decide)⟩,
   ⟨by decide, C1_amended.2 sample_st 0 7 sample_pos_req true (by decide)⟩⟩

/-- C2: for every order successfully created through either route,
total_amount = Σ item total_price − discount_amount + tax_amount, every
line has total_price = unit_price × quantity, and the unit price is the
request override when present (API), else the product catalog price. -/
theorem C2 :
    (∀ (st : DBState) (today : Int) (uid : Nat) (req : OrderRequest) (ok : Bool),
      isCreated (api_create_order st today uid req ok).2 = true →
      createdSat (api_create_order st today uid req ok) (fun _ o its _ =>
        o.total_amount = items_total its - o.discount_amount + o.tax_amount ∧
        o.discount_amount = req.discount_amount ∧
        its.length = req.items.length ∧
        ∀ p ∈ req.items.zip its, apiItemRel st p.1 p.2 = true)) ∧
    (∀ (st : DBState) (today : Int) (uid : Nat) (req : PosOrderRequest) (ok : Bool),
      isCreated (pos_new_order st today uid req ok).2 = true →
      createdSat (pos_new_order st today uid req ok) (fun _ o its _ =>
        o.total_amount = items_total its - o.discount_amount + o.tax_amount ∧
        o.discount_amount = req.discount_amount ∧
        its.length = req.items.length ∧
        ∀ p ∈ req.items.zip its, posItemRel st p.1 p.2 = true)) := by
  constructor
  · intro st today uid req ok h
    obtain ⟨o, its, txn, hr⟩ := isCreated_created _ h
    have heq : api_create_order st today uid req ok =
        ((api_create_order st today uid req ok).1, CreateResult.created o its txn) := by
      rw [← hr]
    obtain ⟨subtotal, hb, ho, -⟩ :=
      api_create_order_created_inv st today uid req ok _ o its txn heq
    obtain ⟨hsum, hlen, hrel, -⟩ := build_items_spec st st.next_order_id req.items its subtotal hb
    unfold createdSat
    rw [hr]
    subst ho
    refine ⟨?_, rfl, hlen, hrel⟩
    show subtotal - req.discount_amount + 0 = items_total its - req.discount_amount + 0
    rw [hsum]
  · intro st today uid req ok h
    obtain ⟨o, its, txn, hr⟩ := isCreated_created _ h
    have heq : pos_new_order st today uid req ok =
        ((pos_new_order st today uid req ok).1, CreateResult.created o its txn) := by
      rw [← hr]
    obtain ⟨subtotal, hb, ho, -⟩ :=
      pos_new_order_created_inv st today uid req ok _ o its txn heq
    obtain ⟨hsum, hlen, hrel, -⟩ :=
      pos_build_items_spec st st.next_order_id req.items its subtotal hb
    unfold createdSat
    rw [hr]
    subst ho
    refine ⟨?_, rfl, hlen, hrel⟩
    show subtotal - req.discount_amount +
        (subtotal - req.discount_amount) * settings_tax_rate st / 100 =
      items_total its - req.discount_amount +
        (subtotal - req.discount_amount) * settings_tax_rate st / 100
    rw [hsum]

/-- C2 witness: the theorem applied to the sample store, through both
routes. -/
theorem C2_witness :
    (isCreated (api_create_order sample_st 0 7 sample_req true).2 = true ∧
     createdSat (api_create_order sample_st 0 7 sample_req true) (fun _ o its _ =>
       o.total_amount = items_total its - o.discount_amount + o.tax_amount ∧
       o.discount_amount = sample_req.discount_amount ∧
       its.length = sample_req.items.length ∧
       ∀ p ∈ sample_req.items.zip its, apiItemRel sample_st p.1 p.2 = true)) ∧
    (isCreated (pos_new_order sample_st 0 7 sample_pos_req true).2 = true ∧
     createdSat (pos_new_order sample_st 0 7 sample_pos_req true) (fun _ o its _ =>
       o.total_amount = items_total its - o.discount_amount + o.tax_amount ∧
       o.discount_amount = sample_pos_req.discount_amount ∧
       its.length = sample_pos_req.items.length ∧
       ∀ p ∈ sample_pos_req.items.zip its, posItemRel sample_st p.1 p.2 = true)) :=
  ⟨⟨by decide, C2.1 sample_st 0 7 sample_req true (by decide)⟩,
   ⟨by decide, C2.2 sample_st 0 7 sample_pos_req true (by decide)⟩⟩

/-- C3: every successful order creation appends, in the same atomic commit as
the order and its items, exactly one ledger transaction of type income,
category sales, amount equal to the order total, referencing the order; when
no pre-existing transaction references the new order id (the id is fresh),
exactly one such transaction exists afterwards. -/
theorem C3 :
    (∀ (st : DBState) (today : Int) (uid : Nat) (req : OrderRequest) (ok : Bool),
      isCreated (api_create_order st today uid req ok).2 = true →
      st.transactions.all
        (fun t => !(t.reference_type == "order" && t.reference_id == some st.next_order_id)) =
        true →
      createdSat (api_create_order st today uid req ok) (fun st2 o its txn =>
        st2.orders = st.orders ++ [o] ∧
        st2.order_items = st.order_items ++ its ∧
        st2.transactions = st.transactions ++ [txn] ∧
        txn.type = "income" ∧ txn.category = "sales" ∧
        txn.amount = o.total_amount ∧ txn.reference_type = "order" ∧
        txn.reference_id = some o.id ∧
        st2.transactions.countP
          (fun t => t.type == "income" &&
            (t.reference_type == "order" && t.reference_id == some o.id)) = 1)) ∧
    (∀ (st : DBState) (today : Int) (uid : Nat) (req : PosOrderRequest) (ok : Bool),
      isCreated (pos_new_order st today uid req ok).2 = true →
      st.transactions.all
        (fun t => !(t.reference_type == "order" && t.reference_id == some st.next_order_id)) =
        true →
      createdSat (pos_new_order st today uid req ok) (fun st2 o its txn =>
        st2.orders = st.orders ++ [o] ∧
        st2.order_items = st.order_items ++ its ∧
        st2.transactions = st.transactions ++ [txn] ∧
        txn.type = "income" ∧ txn.category = "sales" ∧
        txn.amount = o.total_amount ∧ txn.reference_type = "order" ∧
        txn.reference_id = some o.id ∧
        st2.transactions.countP
          (fun t => t.type == "income" &&
            (t.reference_type == "order" && t.reference_id == some o.id)) = 1)) := by
  constructor
  · intro st today uid req ok h hfresh
    obtain ⟨o, its, txn, hr⟩ := isCreated_created _ h
    have heq : api_create_order st today uid req ok =
        ((api_create_order st today uid req ok).1, CreateResult.created o its txn) := by
      rw [← hr]
    obtain ⟨subtotal, hb, ho, htxn, hst2, -⟩ :=
      api_create_order_created_inv st today uid req ok _ o its txn heq
    unfold createdSat
    rw [hr]
    rw [hst2]
    have hid : o.id = st.next_order_id := by rw [ho]
    refine ⟨rfl, rfl, rfl, by rw [htxn], by rw [htxn], by rw [htxn], by rw [htxn],
      by rw [htxn, hid], ?_⟩
    rw [List.countP_append]
    have h0 : st.transactions.countP
        (fun t => t.type == "income" &&
          (t.reference_type == "order" && t.reference_id == some o.id)) = 0 := by
      refine List.countP_eq_zero.mpr ?_
      intro t ht hpt
      have hall := List.all_eq_true.mp hfresh t ht
      simp only [Bool.and_eq_true, beq_iff_eq, Option.some.injEq] at hpt
      rw [hid] at hpt
      simp only [Bool.not_eq_eq_eq_not, Bool.not_true, Bool.and_eq_false_iff,
        beq_eq_false_iff_ne, ne_eq] at hall
      rcases hall with hall | hall
      · exact hall hpt.2.1
      · exact hall hpt.2.2
    rw [h0]
    have h1 : List.countP
        (fun t => t.type == "income" &&
          (t.reference_type == "order" && t.reference_id == some o.id)) [txn] = 1 := by
      simp [List.countP_cons, htxn, hid]
    rw [h1]
  · intro st today uid req ok h hfresh
    obtain ⟨o, its, txn, hr⟩ := isCreated_created _ h
    have heq : pos_new_order st today uid req ok =
        ((pos_new_order st today uid req ok).1, CreateResult.created o its txn) := by
      rw [← hr]
    obtain ⟨subtotal, hb, ho, htxn, hst2, -⟩ :=
      pos_new_order_created_inv st today uid req ok _ o its txn heq
    unfold createdSat
    rw [hr]
    rw [hst2]
    have hid : o.id = st.next_order_id := by rw [ho]
    refine ⟨rfl, rfl, rfl, by rw [htxn], by rw [htxn], by rw [htxn], by rw [htxn],
      by rw [htxn, hid], ?_⟩
    rw [List.countP_append]
    have h0 : st.transactions.countP
        (fun t => t.type == "income" &&
          (t.reference_type == "order" && t.reference_id == some o.id)) = 0 := by
      refine List.countP_eq_zero.mpr ?_
      intro t ht hpt
      have hall := List.all_eq_true.mp hfresh t ht
      simp only [Bool.and_eq_true, beq_iff_eq, Option.some.injEq] at hpt
      rw [hid] at hpt
      simp only [Bool.not_eq_eq_eq_not, Bool.not_true, Bool.and_eq_false_iff,
        beq_eq_false_iff_ne, ne_eq] at hall
      rcases hall with hall | hall
      · exact hall hpt.2.1
      · exact hall hpt.2.2
    rw [h0]
    have h1 : List.countP
        (fun t => t.type == "income" &&
          (t.reference_type == "order" && t.reference_id == some o.id)) [txn] = 1 := by
      simp [List.countP_cons, htxn, hid]
    rw [h1]

/-- C3 witness: the theorem applied to the sample store (which has no prior
transactions), through both routes. -/
theorem C3_witness :
    (isCreated (api_create_order sample_st 0 7 sample_req true).2 = true ∧
     sample_st.transactions.all
       (fun t => !(t.reference_type == "order" &&
         t.reference_id == some sample_st.next_order_id)) = true ∧
     createdSat (api_create_order sample_st 0 7 sample_req true) (fun st2 o its txn =>
       st2.orders = sample_st.orders ++ [o] ∧
       st2.order_items = sample_st.order_items ++ its ∧
       st2.transactions = sample_st.transactions ++ [txn] ∧
       txn.type = "income" ∧ txn.category = "sales" ∧
       txn.amount = o.total_amount ∧ txn.reference_type = "order" ∧
       txn.reference_id = some o.id ∧
       st2.transactions.countP
         (fun t => t.type == "income" &&
           (t.reference_type == "order" && t.reference_id == some o.id)) = 1)) ∧
    (isCreated (pos_new_order sample_st 0 7 sample_pos_req true).2 = true ∧
     createdSat (pos_new_order sample_st 0 7 sample_pos_req true) (fun st2 o its txn =>
       st2.orders = sample_st.orders ++ [o] ∧
       st2.order_items = sample_st.order_items ++ its ∧
       st2.transactions = sample_st.transactions ++ [txn] ∧
       txn.type = "income" ∧ txn.category = "sales" ∧
       txn.amount = o.total_amount ∧ txn.reference_type = "order" ∧
       txn.reference_id = some o.id ∧
       st2.transactions.countP
         (fun t => t.type == "income" &&
           (t.reference_type == "order" && t.reference_id == some o.id)) = 1)) :=
  ⟨⟨by decide, by decide, C3.1 sample_st 0 7 sample_req true (by decide) (by decide)⟩,
   ⟨by decide, C3.2 sample_st 0 7 sample_pos_req true (by decide) (by decide)⟩⟩

/-- C4: whenever order creation does not succeed — empty item list, missing
product, duplicate order number, or a failing commit — the returned store is
exactly the original one: no partial order, item or transaction is ever
observable. -/
theorem C4 :
    (∀ (st : DBState) (today : Int) (uid : Nat) (req : OrderRequest) (ok : Bool),
      isCreated (api_create_order st today uid req ok).2 = false →
      (api_create_order st today uid req ok).1 = st) ∧
    (∀ (st : DBState) (today : Int) (uid : Nat) (req : PosOrderRequest) (ok : Bool),
      isCreated (pos_new_order st today uid req ok).2 = false →
      (pos_new_order st today uid req ok).1 = st) :=
  ⟨fun st today uid req ok h => api_create_order_fail_state st today uid req ok _ _ rfl h,
   fun st today uid req ok h => pos_new_order_fail_state st today uid req ok _ _ rfl h⟩

/-- C4 witness: the theorem applied to three concrete failures — a missing
product through the API, a missing product through the POS, and a failing
commit (persistence failure) through the API. -/
theorem C4_witness :
    (isCreated (api_create_order sample_st 0 7 missing_req true).2 = false ∧
     (api_create_order sample_st 0 7 missing_req true).1 = sample_st) ∧
    (isCreated (pos_new_order sample_st 0 7 missing_pos_req true).2 = false ∧
     (pos_new_order sample_st 0 7 missing_pos_req true).1 = sample_st) ∧
    (isCreated (api_create_order sample_st 0 7 sample_req false).2 = false ∧
     (api_create_order sample_st 0 7 sample_req false).1 = sample_st) :=
  ⟨⟨by decide, C4.1 sample_st 0 7 missing_req true (by decide)⟩,
   ⟨by decide, C4.2 sample_st 0 7 missing_pos_req true (by decide)⟩,
   ⟨by decide, C4.1 sample_st 0 7 sample_req false (by decide)⟩⟩

/-- C5 counterexample: with retention 30 days at day 31, the single
successful backup from day 0 — which is the most recent successful backup —
loses both its file and its BackupLog row. -/
theorem C5_counterexample :
    most_recent_successful c5_bst.logs = some c5_log ∧
    c5_log.status = "success" ∧
    cleanup_old_backups 30 31 c5_bst = { files := [], logs := [] } := by
  refine ⟨by decide, by decide, by decide⟩

/-- C5 amended: cleanup with retention N days deletes exactly the backups
whose log row is older than now − N (their files and rows), with no
exemption for the most recent successful backup; a row survives if and only
if it is not older than the cutoff. -/
theorem C5_amended :
    ∀ (retention_days now : Int) (st : BackupState),
      (∀ b : BackupLog, b ∈ (cleanup_old_backups retention_days now st).logs ↔
        b ∈ st.logs ∧ ¬ b.created_at < now - retention_days) ∧
      (∀ f : String, f ∈ (cleanup_old_backups retention_days now st).files ↔
        f ∈ st.files ∧
          ¬ ∃ b ∈ st.logs, b.created_at < now - retention_days ∧ b.filename = f) := by
  intro retention_days now st
  constructor
  · intro b
    simp [cleanup_old_backups, List.mem_filter]
  · intro f
    simp [cleanup_old_backups, List.mem_filter, List.any_eq_true]

/-- C6 counterexample: an order whose status is already completed is moved
back to pending by the status-update route — a backward transition that is
neither forward in the pipeline nor a cancellation. -/
theorem C6_counterexample :
    completed_order.status = "completed" ∧
    (update_order_status completed_order "pending" 11).map (fun o => o.status) =
      some "pending" ∧
    status_forward_or_cancel "completed" "pending" = false := by
  refine ⟨by decide, by decide, by decide⟩

/-- C6 amended: the status-update routes accept any status from the fixed
five-element list and assign it unconditionally — acceptance does not depend
on the order's current status, so backward moves are allowed — stamping
completed_at when the new status is completed and rejecting only statuses
outside the list. -/
theorem C6_amended :
    ∀ (o : Order) (s : String) (now : Int),
      ((update_order_status o s now).isSome = valid_statuses.contains s) ∧
      (∀ o2 : Order, update_order_status o s now = some o2 →
        o2.status = s ∧ o2.id = o.id ∧ o2.order_number = o.order_number ∧
        o2.total_amount = o.total_amount ∧ o2.tax_amount = o.tax_amount ∧
        o2.completed_at = (if s == "completed" then some now else o.completed_at)) := by
  intro o s now
  constructor
  · simp only [update_order_status]
    by_cases hmem : s ∈ valid_statuses <;> simp [hmem]
  · intro o2 h2
    unfold update_order_status at h2
    split at h2
    · simp only [Option.some.injEq] at h2
      subst h2
      exact ⟨rfl, rfl, rfl, rfl, rfl, rfl⟩
    · simp at h2

/-- C6 witness: the amended theorem applied to the completed order moved back
to pending. -/
theorem C6_witness :
    (update_order_status completed_order "pending" 11).isSome =
      valid_statuses.contains "pending" ∧
    update_order_status completed_order "pending" 11 = some c6_o2 ∧
    (c6_o2.status = "pending" ∧ c6_o2.id = completed_order.id ∧
     c6_o2.order_number = completed_order.order_number ∧
     c6_o2.total_amount = completed_order.total_amount ∧
     c6_o2.tax_amount = completed_order.tax_amount ∧
     c6_o2.completed_at =
       (if "pending" == "completed" then some 11 else completed_order.completed_at)) :=
  ⟨(C6_amended completed_order "pending" 11).1, by decide,
   (C6_amended completed_order "pending" 11).2 c6_o2 (by decide)⟩

/-- C7 counterexample: dup_st already holds order number ORD-0-0002, and the
count-based generator regenerates exactly that number, so the insert violates
the unique index; the route returns the generic 500 failure (serverError)
with the store unchanged — it does not retry and does not surface a
conflict-specific (409) error. -/
theorem C7_counterexample :
    generate_order_number dup_st 0 = "ORD-0-0002" ∧
    dup_st.orders.map (fun o => o.order_number) = ["ORD-0-0002"] ∧
    api_create_order dup_st 0 7 sample_req true = (dup_st, CreateResult.serverError) := by
  refine ⟨by decide, by decide, by decide⟩

/-- C7 amended: when the freshly generated order number collides with an
existing order (the storage unique index rejects the insert), create_order
makes no retry: it rolls back and returns the generic 500 failure in a single
attempt, regardless of the commit flag. -/
theorem C7_amended :
    ∀ (st : DBState) (today : Int) (uid : Nat) (req : OrderRequest) (ok : Bool),
      req.items.isEmpty = false →
      (build_items st st.next_order_id req.items).isOk = true →
      st.orders.any (fun o => o.order_number == generate_order_number st today) = true →
      api_create_order st today uid req ok = (st, CreateResult.serverError) := by
  intro st today uid req ok hne hok hdup
  have hins : insert_order_ok st (generate_order_number st today) = false := by
    rcases List.any_eq_true.mp hdup with ⟨o, ho, hbeq⟩
    by_contra hall
    rw [Bool.not_eq_false] at hall
    have := List.all_eq_true.mp hall o ho
    simp only [bne_iff_ne, ne_eq] at this
    exact this (by simpa using hbeq)
  unfold api_create_order
  rw [hne]
  simp only [Bool.false_eq_true, if_false]
  cases hb : build_items st st.next_order_id req.items with
  | error e =>
    rw [hb] at hok
    simp [Except.isOk, Except.toBool] at hok
  | ok pr =>
    obtain ⟨ois, subtotal⟩ := pr
    simp [hins]

/-- C7 witness: the amended theorem applied to the duplicate-number store. -/
theorem C7_witness :
    sample_req.items.isEmpty = false ∧
    (build_items dup_st dup_st.next_order_id sample_req.items).isOk = true ∧
    dup_st.orders.any
      (fun o => o.order_number == generate_order_number dup_st 0) = true ∧
    api_create_order dup_st 0 7 sample_req true = (dup_st, CreateResult.serverError) :=
  ⟨by decide, by decide, by decide,
   C7_amended dup_st 0 7 sample_req true (by decide) (by decide) (by decide)⟩

/-- C8: verify_jwt_token accepts a presented token, returning a user, exactly
when the signature matches the configured secret, the token is unexpired
(exp strictly in the future), its type tag is access, and the embedded user
id resolves to an existing active user; in every other case it returns
nothing.  Access tokens are issued with exp = iat + 24 hours. -/
theorem C8 :
    ∀ (secret : String) (now : Int) (users : List User) (t : JwtToken) (u : User),
      (verify_jwt_token secret now users t = some u ↔
        t.sig_key = secret ∧ now < t.payload.exp ∧ t.payload.type = "access" ∧
        users.find? (fun v => v.id == t.payload.user_id) = some u ∧ u.is_active = true) ∧
      (generate_jwt_token secret u now).payload.exp = now + 24 * 60 * 60 ∧
      (generate_jwt_token secret u now).payload.type = "access" ∧
      (generate_jwt_token secret u now).sig_key = secret := by
  intro secret now users t u
  refine ⟨?_, rfl, rfl, rfl⟩
  unfold verify_jwt_token jwt_decode
  by_cases hsig : t.sig_key = secret
  · by_cases hexp : t.payload.exp ≤ now
    · simp [hsig, hexp, not_lt.mpr hexp]
    · by_cases htype : t.payload.type = "access"
      · cases hfind : users.find? (fun v => v.id == t.payload.user_id) with
        | none => simp [hsig, hexp, htype, hfind, lt_of_not_le hexp]
        | some v =>
          by_cases hact : v.is_active = true
          · simp [hsig, hexp, htype, hfind, hact, lt_of_not_le hexp]
            intro hvu
            subst hvu
            exact hact
          · simp [hsig, hexp, htype, hfind, hact]
            intro hlt hvu
            subst hvu
            simpa using hact
      · simp [hsig, hexp, htype, lt_of_not_le hexp]
  · simp [hsig]

/-- C9 counterexample: on day 20 (a Wednesday, weekday 2) the current
Monday-to-Sunday week is days 18..24, but the weekly spreadsheet export
includes a transaction from day 14 (six days back), which weekly_report
excludes: the two weekly windows disagree, so they are not both
Monday-to-Sunday. -/
theorem C9_counterexample :
    weekday 20 = 2 ∧
    week_start 20 = 18 ∧
    export_includes "weekly" 20 14 = true ∧
    weekly_report_includes 20 14 = false := by
  have hs : export_start_date "weekly" 20 = (20 : ℚ) - 7 := rfl
  refine ⟨by decide, by decide, ?_, by decide⟩
  norm_num [export_includes, hs]

/-- C9 amended: the structured weekly report aggregates over the
Monday-to-Sunday window of the current week (its start is the Monday on or
before today, its end six days later), while the weekly spreadsheet export
aggregates over the trailing seven days: a row is exported exactly when its
timestamp is at least now − 7 days, with no upper bound. -/
theorem C9_amended :
    (∀ today : Int,
      weekday (week_start today) = 0 ∧
      week_start today ≤ today ∧ today ≤ week_start today + 6 ∧
      ∀ d : Int, weekly_report_includes today d = true ↔
        week_start today ≤ d ∧ d ≤ week_start today + 6) ∧
    (∀ now t : ℚ, export_includes "weekly" now t = true ↔ now - 7 ≤ t) := by
  constructor
  · intro today
    refine ⟨?_, ?_, ?_, ?_⟩
    · simp only [weekday, week_start]
      omega
    · simp only [week_start, weekday]
      omega
    · simp only [week_start, weekday]
      omega
    · intro d
      simp [weekly_report_includes]
  · intro now t
    have hs : export_start_date "weekly" now = now - 7 := rfl
    simp [export_includes, hs]

/-- C10: User.has_permission returns true for every user (any role) and
every permission string (the role check is a placeholder that returns true on
both branches), so for every authenticated user the permission decorator
falls through to the handler — it never produces the 403
insufficient-permissions outcome. -/
theorem C10 :
    (∀ (u : User) (p : String), u.has_permission p = true) ∧
    (∀ (p : String) (u : User),
      has_permission_decorator p (some u) = AuthCheck.allowed) := by
  constructor
  · intro u p
    unfold User.has_permission
    split <;> rfl
  · intro p u
    simp [has_permission_decorator, User.has_permission]

end LaundryPos
